import Mathlib

/-!
# FARP core — shallow embedding and verification

A shallow embedding of the claim-relevant parts of the `farp` Rust crate:
protocol-version compatibility (`src/version.rs`), manifest and descriptor
validation and checksums (`src/manifest.rs`), the in-memory registry state
machine (`src/registry/memory.rs`), the gateway client's route conversion and
cache handling (`src/gateway/client.rs`), and the OpenAPI merger
(`src/merger/mod.rs`, `src/merger/openapi.rs`).

Conventions of the embedding:
* Rust `HashMap` values are modelled as association lists (`List (String × α)`)
  with `ainsert` replacing the binding of an existing key in place, which is
  Rust's `HashMap::insert` up to iteration order.  `serde_json::Map` objects
  keep source order, matching the specification's statement that input order
  is preserved.
* Rust `u32` arithmetic is `Nat` with explicit `% 2 ^ 32` where overflow can
  occur (the SHA-256 compression function).
* Fallible Rust functions returning `Result<T, Error>` become
  `Except Err T`.
* Strings are manipulated through their character lists so that every
  definition is executable and reducible by the kernel.  Rust's `str::len`
  (bytes) is modelled by the UTF-8 byte length.
* Fields of the data model that no verified operation ever inspects
  (`instance`, `auth`, `webhook`, `hints`, descriptor `compatibility`,
  non-OpenAPI protocol metadata) are carried as uninterpreted JSON values.
-/

namespace Farp

/-- `serde_json::Value`.  Objects are ordered field lists (source order is
preserved, as the specification requires of `x-…` keys and paths). -/
inductive Json where
  | null : Json
  | bool (b : Bool) : Json
  | num (n : Int) : Json
  | str (s : String) : Json
  | arr (items : List Json) : Json
  | obj (fields : List (String × Json)) : Json

/-- First binding of `key` in an association list (`HashMap::get`). -/
def alookup {α : Type} : List (String × α) → String → Option α
  | [], _ => none
  | (k, v) :: rest, key => if k = key then some v else alookup rest key

/-- `HashMap::insert`: replace the binding of an existing key in place,
otherwise append. -/
def ainsert {α : Type} : List (String × α) → String → α → List (String × α)
  | [], key, val => [(key, val)]
  | (k, v) :: rest, key, val =>
    if k = key then (key, val) :: rest else (k, v) :: ainsert rest key val

/-- `HashMap::extend`: insert every binding of `new` into `old` (later
bindings of `new` override earlier ones and `old`). -/
def aextend {α : Type} (old new : List (String × α)) : List (String × α) :=
  new.foldl (fun acc kv => ainsert acc kv.1 kv.2) old

/-- `HashMap::remove`, dropping the first binding of `key`. -/
def aremove {α : Type} : List (String × α) → String → List (String × α)
  | [], _ => []
  | (k, v) :: rest, key => if k = key then rest else (k, v) :: aremove rest key

/-- `HashMap::contains_key`. -/
def acontains {α : Type} (l : List (String × α)) (key : String) : Bool :=
  (alookup l key).isSome

/-- Field access on a JSON object (`Value::get`), `none` on non-objects. -/
def Json.get : Json → String → Option Json
  | .obj fields, key => alookup fields key
  | _, _ => none

/-- `Value::as_object`. -/
def Json.asObject : Json → Option (List (String × Json))
  | .obj fields => some fields
  | _ => none

/-- `Value::as_str`. -/
def Json.asStr : Json → Option String
  | .str s => some s
  | _ => none

/-! ## `src/version.rs` — protocol version and compatibility -/

/-- `PROTOCOL_VERSION`. -/
def PROTOCOL_VERSION : String := "1.0.0"

/-- `PROTOCOL_MAJOR`. -/
def PROTOCOL_MAJOR : Nat := 1

/-- `PROTOCOL_MINOR`. -/
def PROTOCOL_MINOR : Nat := 0

/-- `PROTOCOL_PATCH`. -/
def PROTOCOL_PATCH : Nat := 0

/-- Rust `str::split(sep)` on a character list: always at least one (possibly
empty) segment, one extra segment per separator occurrence. -/
def splitOnChar (sep : Char) : List Char → List (List Char)
  | [] => [[]]
  | c :: cs =>
    match splitOnChar sep cs with
    | [] => [[]]
    | seg :: rest => if c = sep then [] :: seg :: rest else (c :: seg) :: rest

/-- `u32::MAX`. -/
def U32_MAX : Nat := 4294967295

/-- Rust `str::parse::<u32>()`: an optional `+` sign followed by at least one
ASCII digit, rejecting values above `u32::MAX`. -/
def parse_u32 (cs : List Char) : Option Nat :=
  let digits := match cs with
    | '+' :: rest => rest
    | other => other
  if digits = [] then none
  else if digits.all (fun c => c.isDigit) then
    let n := digits.foldl (fun acc c => acc * 10 + (c.toNat - 48)) 0
    if n ≤ U32_MAX then some n else none
  else none

/-- `is_compatible` (`src/version.rs:63-83`): split on `.`, require exactly
three segments, parse the first two as `u32`, require the major to equal
`PROTOCOL_MAJOR` and the minor to be at most `PROTOCOL_MINOR`.  The third
segment is never parsed. -/
def is_compatible (manifest_version : String) : Bool :=
  match splitOnChar '.' manifest_version.data with
  | [p0, p1, _p2] =>
    match parse_u32 p0, parse_u32 p1 with
    | some major, some minor => major = PROTOCOL_MAJOR && decide (minor ≤ PROTOCOL_MINOR)
    | _, _ => false
  | _ => false

/-- Modelled from the spec wording of claim C2: a version is compatible iff it
parses as exactly three dot-separated non-negative integers `M.m.p` — every
segment, the patch included, must parse — with `M = PROTOCOL_MAJOR` and
`m ≤ PROTOCOL_MINOR`. -/
def spec_compatible (v : String) : Bool :=
  match splitOnChar '.' v.data with
  | [p0, p1, p2] =>
    match parse_u32 p0, parse_u32 p1, parse_u32 p2 with
    | some major, some minor, some _patch =>
      major = PROTOCOL_MAJOR && decide (minor ≤ PROTOCOL_MINOR)
    | _, _, _ => false
  | _ => false

/-! ## `src/types.rs` — core data model -/

/-- `SchemaType`. -/
inductive SchemaType where
  | OpenAPI | AsyncAPI | GRPC | GraphQL | ORPC | Thrift | Avro | Custom
deriving DecidableEq

/-- `SchemaType::is_valid` (`matches!` over all eight variants). -/
def SchemaType.is_valid : SchemaType → Bool
  | .OpenAPI | .AsyncAPI | .GRPC | .GraphQL | .ORPC | .Thrift | .Avro | .Custom => true

/-- `SchemaType::as_str`. -/
def SchemaType.as_str : SchemaType → String
  | .OpenAPI => "openapi"
  | .AsyncAPI => "asyncapi"
  | .GRPC => "grpc"
  | .GraphQL => "graphql"
  | .ORPC => "orpc"
  | .Thrift => "thrift"
  | .Avro => "avro"
  | .Custom => "custom"

/-- `LocationType`. -/
inductive LocationType where
  | HTTP | Registry | Inline
deriving DecidableEq

/-- `LocationType::is_valid`. -/
def LocationType.is_valid : LocationType → Bool
  | .HTTP | .Registry | .Inline => true

/-- `LocationType::as_str`. -/
def LocationType.as_str : LocationType → String
  | .HTTP => "http"
  | .Registry => "registry"
  | .Inline => "inline"

/-- `MountStrategy`. -/
inductive MountStrategy where
  | Root | Instance | Service | Versioned | Custom | Subdomain
deriving DecidableEq

/-- `ConflictStrategy`.  The source variant `Prefix` is rendered `pfx` in the
embedding (the name itself is unavailable here); all other variants keep
their source names. -/
inductive ConflictStrategy where
  | pfx | error | skip | overwrite | merge
deriving DecidableEq

/-- `SchemaLocation`. -/
structure SchemaLocation where
  location_type : LocationType
  url : Option String
  registry_path : Option String
  headers : Option (List (String × String))

/-- `OpenAPIServer` (`src/types.rs`); `variables` (rendered `vars`) is never inspected by a
verified operation and stays uninterpreted. -/
structure OpenAPIServer where
  url : String
  description : Option String
  vars : Option Json

/-- `CompositionConfig`.  Source field names `component_prefix`,
`tag_prefix`, `operation_id_prefix` are rendered with the `_pfx` suffix. -/
structure CompositionConfig where
  include_in_merged : Bool
  component_pfx : Option String
  tag_pfx : Option String
  operation_id_pfx : Option String
  conflict_strategy : ConflictStrategy
  preserve_extensions : Bool
  custom_servers : List OpenAPIServer

/-- `OpenAPIMetadata`; `server_variables` is never inspected. -/
structure OpenAPIMetadata where
  extensions : Option (List (String × Json))
  server_variables : Option Json
  default_security : List String
  composition : Option CompositionConfig

/-- `ProtocolMetadata`; only the `openapi` arm is ever read by the verified
operations, the other protocol bags stay uninterpreted JSON. -/
structure ProtocolMetadata where
  graphql : Option Json
  grpc : Option Json
  openapi : Option OpenAPIMetadata
  asyncapi : Option Json
  orpc : Option Json

/-- `SchemaDescriptor`; `compatibility` is never inspected by a verified
operation and stays uninterpreted. -/
structure SchemaDescriptor where
  schema_type : SchemaType
  spec_version : String
  location : SchemaLocation
  content_type : String
  inline_schema : Option Json
  hash : String
  size : Int
  compatibility : Option Json
  metadata : Option ProtocolMetadata

/-- `SchemaEndpoints`. -/
structure SchemaEndpoints where
  health : String
  metrics : Option String
  openapi : Option String
  asyncapi : Option String
  grpc_reflection : Bool
  graphql : Option String

/-- `PathRewrite`. -/
structure PathRewrite where
  pattern : String
  replacement : String

/-- `RoutingConfig`.  Source field `strip_prefix` is rendered `strip_pfx`. -/
structure RoutingConfig where
  strategy : MountStrategy
  base_path : Option String
  subdomain : Option String
  rewrite : List PathRewrite
  strip_pfx : Bool
  priority : Option Int
  tags : List String

/-- `SchemaManifest`.  The `instance` (rendered `instance_md`), `auth`,
`webhook` and `hints` sub-records are never inspected by a verified
operation and stay uninterpreted JSON. -/
structure SchemaManifest where
  version : String
  service_name : String
  service_version : String
  instance_id : String
  instance_md : Option Json
  schemas : List SchemaDescriptor
  capabilities : List String
  endpoints : SchemaEndpoints
  routing : RoutingConfig
  auth : Option Json
  webhook : Option Json
  hints : Option Json
  updated_at : Int
  checksum : String

/-! ## `src/errors.rs` — error kinds

Variants never constructed by a verified operation (`ProviderNotFound`,
`RegistryNotConfigured`, `ValidationFailed`, the `Manifest`/`Schema`
wrappers, `Serialization`, `Io`, channel errors) are omitted. -/

/-- `Error`. -/
inductive Err where
  | ManifestNotFound
  | SchemaNotFound
  | InvalidManifest (msg : String)
  | InvalidSchema (msg : String)
  | SchemaToLarge (size max_size : Nat)
  | ChecksumMismatch (expected actual : String)
  | UnsupportedType (t : SchemaType)
  | BackendUnavailable (msg : String)
  | IncompatibleVersion (manifest_version protocol_version : String)
  | InvalidLocation (msg : String)
  | SchemaFetchFailed (msg : String)
  | Validation (field message : String)
  | Custom (msg : String)
deriving DecidableEq

/-- The `thiserror`-generated `Display` of `Error`, used where the source
interpolates an error into a message (`format!("…: {e}")`). -/
def Err.display : Err → String
  | .ManifestNotFound => "schema manifest not found"
  | .SchemaNotFound => "schema not found"
  | .InvalidManifest m => "invalid manifest format: " ++ m
  | .InvalidSchema m => "invalid schema format: " ++ m
  | .SchemaToLarge s mx =>
    "schema exceeds size limit: " ++ toString s ++ " bytes (max " ++ toString mx ++ ")"
  | .ChecksumMismatch e a => "schema checksum mismatch: expected " ++ e ++ ", got " ++ a
  | .UnsupportedType t => "unsupported schema type: " ++ t.as_str
  | .BackendUnavailable m => "backend unavailable: " ++ m
  | .IncompatibleVersion mv pv =>
    "incompatible protocol version: manifest version " ++ mv ++ ", protocol version " ++ pv
  | .InvalidLocation m => "invalid schema location: " ++ m
  | .SchemaFetchFailed m => "failed to fetch schema: " ++ m
  | .Validation f m => "validation error: field=" ++ f ++ " message=" ++ m
  | .Custom m => "custom error: " ++ m

/-! ## UTF-8 and SHA-256

The `sha2` crate dependency, translated from the FIPS 180-4 algorithm it
implements; words are `Nat` reduced mod `2 ^ 32`. -/

/-- UTF-8 encoding of one character (Rust `str::as_bytes` per char). -/
def utf8Char (c : Char) : List Nat :=
  let n := c.toNat
  if n < 128 then [n]
  else if n < 2048 then [192 + n / 64, 128 + n % 64]
  else if n < 65536 then [224 + n / 4096, 128 + n / 64 % 64, 128 + n % 64]
  else [240 + n / 262144, 128 + n / 4096 % 64, 128 + n / 64 % 64, 128 + n % 64]

/-- `str::as_bytes`. -/
def utf8Bytes (s : String) : List Nat := (s.data.map utf8Char).flatten

/-- `str::len` (UTF-8 byte length). -/
def strByteLen (s : String) : Nat := (utf8Bytes s).length

/-- Reduce to a 32-bit word. -/
def w32 (n : Nat) : Nat := n % 4294967296

/-- Right rotation of a 32-bit word by `n` places. -/
def rotr32 (x n : Nat) : Nat := x / 2 ^ n + x % 2 ^ n * 2 ^ (32 - n)

/-- Bitwise complement of a 32-bit word. -/
def not32 (x : Nat) : Nat := 4294967295 - x

/-- SHA-256 round constants. -/
def sha256K : List Nat :=
  [1116352408, 1899447441, 3049323471, 3921009573, 961987163, 1508970993,
   2453635748, 2870763221, 3624381080, 310598401, 607225278, 1426881987,
   1925078388, 2162078206, 2614888103, 3248222580, 3835390401, 4022224774,
   264347078, 604807628, 770255983, 1249150122, 1555081692, 1996064986,
   2554220882, 2821834349, 2952996808, 3210313671, 3336571891, 3584528711,
   113926993, 338241895, 666307205, 773529912, 1294757372, 1396182291,
   1695183700, 1986661051, 2177026350, 2456956037, 2730485921, 2820302411,
   3259730800, 3345764771, 3516065817, 3600352804, 4094571909, 275423344,
   430227734, 506948616, 659060556, 883997877, 958139571, 1322822218,
   1537002063, 1747873779, 1955562222, 2024104815, 2227730452, 2361852424,
   2428436474, 2756734187, 3204031479, 3329325298]

/-- SHA-256 initial hash state. -/
def sha256H0 : List Nat :=
  [1779033703, 3144134277, 1013904242, 2773480762,
   1359893119, 2600822924, 528734635, 1541459225]

/-- σ₀. -/
def smallSigma0 (x : Nat) : Nat := rotr32 x 7 ^^^ rotr32 x 18 ^^^ x / 2 ^ 3

/-- σ₁. -/
def smallSigma1 (x : Nat) : Nat := rotr32 x 17 ^^^ rotr32 x 19 ^^^ x / 2 ^ 10

/-- Σ₀. -/
def bigSigma0 (x : Nat) : Nat := rotr32 x 2 ^^^ rotr32 x 13 ^^^ rotr32 x 22

/-- Σ₁. -/
def bigSigma1 (x : Nat) : Nat := rotr32 x 6 ^^^ rotr32 x 11 ^^^ rotr32 x 25

/-- Padding: append `0x80`, zero bytes to 56 mod 64, and the bit length as
eight big-endian bytes. -/
def sha256pad (msg : List Nat) : List Nat :=
  let len := msg.length
  let bitlen := len * 8
  let zeros := (119 - len % 64) % 64
  msg ++ [128] ++ List.replicate zeros 0 ++
    [bitlen / 2 ^ 56 % 256, bitlen / 2 ^ 48 % 256, bitlen / 2 ^ 40 % 256,
     bitlen / 2 ^ 32 % 256, bitlen / 2 ^ 24 % 256, bitlen / 2 ^ 16 % 256,
     bitlen / 2 ^ 8 % 256, bitlen % 256]

/-- Group bytes into big-endian 32-bit words. -/
def bytesToWords : List Nat → List Nat
  | b0 :: b1 :: b2 :: b3 :: rest =>
    (((b0 * 256 + b1) * 256 + b2) * 256 + b3) :: bytesToWords rest
  | _ => []

/-- Split a word list into 16-word blocks. -/
def toBlocks (ws : List Nat) : List (List Nat) :=
  match ws with
  | [] => []
  | w :: rest => (w :: rest.take 15) :: toBlocks (rest.drop 15)
termination_by ws.length
decreasing_by simp [List.length_drop]; omega

/-- Extend a 16-word block to the 64-word message schedule. -/
def sched64 (block : List Nat) : List Nat :=
  (List.range 48).foldl
    (fun w _ =>
      let n := w.length
      w ++ [w32 (smallSigma1 (w.getD (n - 2) 0) + w.getD (n - 7) 0 +
                 smallSigma0 (w.getD (n - 15) 0) + w.getD (n - 16) 0)])
    block

/-- The 64 compression rounds over state `[a, b, c, d, e, f, g, h]`. -/
def sha256rounds : List (Nat × Nat) → List Nat → List Nat
  | [], st => st
  | (k, wt) :: rest, st =>
    match st with
    | [a, b, c, d, e, f, g, hh] =>
      let t1 := w32 (hh + bigSigma1 e + ((e &&& f) ^^^ (not32 e &&& g)) + k + wt)
      let t2 := w32 (bigSigma0 a + ((a &&& b) ^^^ (a &&& c) ^^^ (b &&& c)))
      sha256rounds rest [w32 (t1 + t2), a, b, c, w32 (d + t1), e, f, g]
    | other => other

/-- One block of SHA-256 compression. -/
def sha256compress (h block : List Nat) : List Nat :=
  let st := sha256rounds (sha256K.zip (sched64 block)) h
  (h.zip st).map (fun p => w32 (p.1 + p.2))

/-- Big-endian bytes of a 32-bit word. -/
def wordBytes (w : Nat) : List Nat :=
  [w / 2 ^ 24 % 256, w / 2 ^ 16 % 256, w / 2 ^ 8 % 256, w % 256]

/-- SHA-256 of a byte string, as 32 digest bytes. -/
def sha256 (msg : List Nat) : List Nat :=
  let hh := (toBlocks (bytesToWords (sha256pad msg))).foldl sha256compress sha256H0
  (hh.map wordBytes).flatten

/-- One lowercase hex digit. -/
def hexDigit (n : Nat) : Char :=
  if n < 10 then Char.ofNat (48 + n) else Char.ofNat (87 + n)

/-- `hex::encode`: lowercase hexadecimal of a byte string. -/
def hex_encode (bytes : List Nat) : String :=
  ⟨(bytes.map (fun b => [hexDigit (b / 16), hexDigit (b % 16)])).flatten⟩

/-- Lowercase-hex SHA-256 of a string's UTF-8 bytes. -/
def sha256_hex (s : String) : String := hex_encode (sha256 (utf8Bytes s))

/-! ## `src/manifest.rs` — validation, checksum -/

/-- `validate_schema_location` (`src/manifest.rs:195-222`). -/
def validate_schema_location (sl : SchemaLocation) : Except Err Unit :=
  if !sl.location_type.is_valid then
    .error (.InvalidLocation ("invalid location type: " ++ sl.location_type.as_str))
  else
    match sl.location_type with
    | .HTTP =>
      match sl.url with
      | none => .error (.InvalidLocation "URL required for HTTP location")
      | some u =>
        if u = "" then .error (.InvalidLocation "URL required for HTTP location") else .ok ()
    | .Registry =>
      match sl.registry_path with
      | none => .error (.InvalidLocation "registry path required for registry location")
      | some p =>
        if p = "" then .error (.InvalidLocation "registry path required for registry location")
        else .ok ()
    | .Inline => .ok ()

/-- `validate_schema_descriptor` (`src/manifest.rs:145-192`): type, spec
version, location, inline presence, hash required, hash byte length 64,
content type.  Note the hash check is on `str::len` only; no hexadecimal or
case test appears in the source. -/
def validate_schema_descriptor (sd : SchemaDescriptor) : Except Err Unit :=
  if !sd.schema_type.is_valid then
    .error (.UnsupportedType sd.schema_type)
  else if sd.spec_version = "" then
    .error (.Validation "spec_version" "spec version is required")
  else
    match validate_schema_location sd.location with
    | .error e => .error e
    | .ok _ =>
      if sd.location.location_type = LocationType.Inline ∧ sd.inline_schema.isNone then
        .error (.Validation "inline_schema" "inline schema is required for inline location type")
      else if sd.hash = "" then
        .error (.Validation "hash" "schema hash is required")
      else if strByteLen sd.hash ≠ 64 then
        .error (.Validation "hash" "invalid hash format (expected 64 hex characters)")
      else if sd.content_type = "" then
        .error (.Validation "content_type" "content type is required")
      else .ok ()

/-- Stable insertion sort by a string key.  Rust's `sort_by` is stable, and a
stable sort's output is determined by the key, so this models
`sorted_schemas.sort_by(|a, b| a.schema_type.as_str().cmp(b.schema_type.as_str()))`. -/
def insertByKey {α : Type} (key : α → String) (x : α) : List α → List α
  | [] => [x]
  | y :: ys => if key y < key x then y :: insertByKey key x ys else x :: y :: ys

/-- Stable sort by a string key (see `insertByKey`). -/
def sortByKey {α : Type} (key : α → String) : List α → List α
  | [] => []
  | x :: xs => insertByKey key x (sortByKey key xs)

/-- `calculate_manifest_checksum` (`src/manifest.rs:225-242`): empty schema
list gives the empty string, otherwise sort by `schema_type.as_str()`,
concatenate the `hash` fields, and hash. -/
def calculate_manifest_checksum (manifest : SchemaManifest) : Except Err String :=
  if manifest.schemas.isEmpty then .ok ""
  else
    let sorted_schemas := sortByKey (fun s => s.schema_type.as_str) manifest.schemas
    let combined := sorted_schemas.foldl (fun acc s => acc ++ s.hash) ""
    .ok (sha256_hex combined)

/-- The per-descriptor loop of `SchemaManifest::validate`
(`src/manifest.rs:101-105`), annotating failures with the index. -/
def validateDescriptors : List SchemaDescriptor → Nat → Except Err Unit
  | [], _ => .ok ()
  | sd :: rest, i =>
    match validate_schema_descriptor sd with
    | .error e =>
      .error (.InvalidManifest ("invalid schema at index " ++ toString i ++ ": " ++ e.display))
    | .ok _ => validateDescriptors rest (i + 1)

/-- `SchemaManifest::validate` (`src/manifest.rs:71-116`): protocol
compatibility, required fields, per-descriptor validation, checksum
recomputation when a checksum is present. -/
def SchemaManifest.validate (m : SchemaManifest) : Except Err Unit :=
  if !is_compatible m.version then
    .error (.IncompatibleVersion m.version PROTOCOL_VERSION)
  else if m.service_name = "" then
    .error (.Validation "service_name" "service name is required")
  else if m.instance_id = "" then
    .error (.Validation "instance_id" "instance ID is required")
  else if m.endpoints.health = "" then
    .error (.Validation "endpoints.health" "health endpoint is required")
  else
    match validateDescriptors m.schemas 0 with
    | .error e => .error e
    | .ok _ =>
      if m.checksum ≠ "" then
        match calculate_manifest_checksum m with
        | .ok expected =>
          if m.checksum ≠ expected then .error (.ChecksumMismatch expected m.checksum)
          else .ok ()
        | .error e => .error e
      else .ok ()

/-- Modelled from the spec wording of claim C3: exactly 64 lowercase
hexadecimal characters. -/
def isLowerHex64 (s : String) : Bool :=
  s.data.length = 64 &&
    s.data.all (fun c => c.isDigit || ('a' ≤ c && c ≤ 'f'))

/-- Modelled from the spec wording of claim C4: sort the descriptors by the
lexicographic string form of their `schema_type`, concatenate their `hash`
fields with no separator, and take the lowercase-hex SHA-256; the empty
schema list gives the empty string. -/
def manifestChecksumSpec (m : SchemaManifest) : String :=
  match m.schemas with
  | [] => ""
  | _ =>
    hex_encode (sha256 (utf8Bytes
      (String.join ((sortByKey (fun s => s.schema_type.as_str) m.schemas).map (fun s => s.hash)))))

/-! ## `src/registry/memory.rs` — the in-memory registry

The registry's shared state (`RegistryInner`) is a record; each `async fn`
becomes a state-transition function.  Watcher channels (`UnboundedSender`)
are identified by numeric ids; one call's fan-out is the list of
`(sender id, event)` deliveries in send order.  `chrono::Utc::now()` becomes
an explicit `now` argument. -/

/-- `EventType`. -/
inductive EventType where
  | Added | Updated | Removed
deriving DecidableEq

/-- `ManifestEvent`. -/
structure ManifestEvent where
  event_type : EventType
  manifest : SchemaManifest
  timestamp : Int

/-- `RegistryInner`: manifest map, schema map, watcher buckets, closed flag. -/
structure RegistryState where
  manifests : List (String × SchemaManifest)
  schemas : List (String × Json)
  watchers : List (String × List Nat)
  closed : Bool

/-- Result of one registry call: the returned value, the post-state, and the
events delivered to watcher channels. -/
structure RegOutcome (α : Type) where
  result : Except Err α
  state : RegistryState
  sent : List (Nat × ManifestEvent)

namespace MemoryRegistry

/-- `notify_watchers` (`src/registry/memory.rs:48-64`): the service bucket
first, then the global (`""`) bucket. -/
def notify_watchers (s : RegistryState) (service_name : String)
    (event : ManifestEvent) : List (Nat × ManifestEvent) :=
  (match alookup s.watchers service_name with
   | some service_watchers => service_watchers.map (fun id => (id, event))
   | none => []) ++
  (match alookup s.watchers "" with
   | some global_watchers => global_watchers.map (fun id => (id, event))
   | none => [])

/-- `register_manifest` (`src/registry/memory.rs:83-104`). -/
def register_manifest (s : RegistryState) (manifest : SchemaManifest)
    (now : Int) : RegOutcome Unit :=
  if s.closed then ⟨.error (.BackendUnavailable "registry is closed"), s, []⟩
  else
    match manifest.validate with
    | .error e => ⟨.error e, s, []⟩
    | .ok _ =>
      let s' := { s with manifests := ainsert s.manifests manifest.instance_id manifest }
      let event : ManifestEvent := ⟨.Added, manifest, now⟩
      ⟨.ok (), s', notify_watchers s' manifest.service_name event⟩

/-- `get_manifest` (`src/registry/memory.rs:106-112`); a pure read, no
closed-flag check. -/
def get_manifest (s : RegistryState) (instance_id : String) :
    Except Err SchemaManifest :=
  match alookup s.manifests instance_id with
  | some m => .ok m
  | none => .error .ManifestNotFound

/-- `update_manifest` (`src/registry/memory.rs:114-139`). -/
def update_manifest (s : RegistryState) (manifest : SchemaManifest)
    (now : Int) : RegOutcome Unit :=
  if s.closed then ⟨.error (.BackendUnavailable "registry is closed"), s, []⟩
  else
    match manifest.validate with
    | .error e => ⟨.error e, s, []⟩
    | .ok _ =>
      if !acontains s.manifests manifest.instance_id then
        ⟨.error .ManifestNotFound, s, []⟩
      else
        let s' := { s with manifests := ainsert s.manifests manifest.instance_id manifest }
        let event : ManifestEvent := ⟨.Updated, manifest, now⟩
        ⟨.ok (), s', notify_watchers s' manifest.service_name event⟩

/-- `delete_manifest` (`src/registry/memory.rs:141-161`). -/
def delete_manifest (s : RegistryState) (instance_id : String)
    (now : Int) : RegOutcome Unit :=
  if s.closed then ⟨.error (.BackendUnavailable "registry is closed"), s, []⟩
  else
    match alookup s.manifests instance_id with
    | none => ⟨.error .ManifestNotFound, s, []⟩
    | some manifest =>
      let s' := { s with manifests := aremove s.manifests instance_id }
      let event : ManifestEvent := ⟨.Removed, manifest, now⟩
      ⟨.ok (), s', notify_watchers s' manifest.service_name event⟩

/-- `list_manifests` (`src/registry/memory.rs:163-171`); a pure read, no
closed-flag check. -/
def list_manifests (s : RegistryState) (service_name : String) :
    Except Err (List SchemaManifest) :=
  .ok ((s.manifests.map Prod.snd).filter
    (fun m => service_name = "" || m.service_name = service_name))

/-- `publish_schema` (`src/registry/memory.rs:173-181`). -/
def publish_schema (s : RegistryState) (path : String) (schema : Json) :
    RegOutcome Unit :=
  if s.closed then ⟨.error (.BackendUnavailable "registry is closed"), s, []⟩
  else ⟨.ok (), { s with schemas := ainsert s.schemas path schema }, []⟩

/-- `fetch_schema` (`src/registry/memory.rs:183-186`); a pure read, no
closed-flag check. -/
def fetch_schema (s : RegistryState) (path : String) : Except Err Json :=
  match alookup s.schemas path with
  | some v => .ok v
  | none => .error .SchemaNotFound

/-- `delete_schema` (`src/registry/memory.rs:188-196`). -/
def delete_schema (s : RegistryState) (path : String) : RegOutcome Unit :=
  if s.closed then ⟨.error (.BackendUnavailable "registry is closed"), s, []⟩
  else ⟨.ok (), { s with schemas := aremove s.schemas path }, []⟩

/-- `watch_manifests` (`src/registry/memory.rs:198-226`): append a fresh
sender to the service bucket. -/
def watch_manifests (s : RegistryState) (service_name : String) (tx : Nat) :
    RegOutcome Unit :=
  if s.closed then ⟨.error (.BackendUnavailable "registry is closed"), s, []⟩
  else
    let bucket := (alookup s.watchers service_name).getD []
    ⟨.ok (), { s with watchers := ainsert s.watchers service_name (bucket ++ [tx]) }, []⟩

/-- `close` (`src/registry/memory.rs:239-252`): idempotent; sets the flag and
clears watchers, retaining manifests and schemas. -/
def close (s : RegistryState) : RegOutcome Unit :=
  if s.closed then ⟨.ok (), s, []⟩
  else ⟨.ok (), { s with closed := true, watchers := [] }, []⟩

/-- `health` (`src/registry/memory.rs:254-259`). -/
def health (s : RegistryState) : Except Err Unit :=
  if s.closed then .error (.BackendUnavailable "registry is closed") else .ok ()

end MemoryRegistry

/-! ## `src/gateway/client.rs` — gateway client -/

/-- `ServiceRoute`. -/
structure ServiceRoute where
  path : String
  methods : List String
  target_url : String
  health_url : String
  service_name : String
  service_version : String
  middleware : List String
  metadata : List (String × Json)

/-- The cache state of `Client` (`src/gateway/client.rs:14-18`): the manifest
cache keyed by `instance_id` and the schema cache keyed by descriptor
`hash`. -/
structure ClientState where
  manifest_cache : List (String × SchemaManifest)
  schema_cache : List (String × Json)

/-- ASCII uppercase (`str::to_uppercase`; it is only ever applied to the
seven lowercase HTTP verb strings, where Unicode and ASCII case agree). -/
def toUpperAscii (s : String) : String := ⟨s.data.map Char.toUpper⟩

/-- ASCII lowercase, used by the claim-side route conversion. -/
def toLowerAscii (s : String) : String := ⟨s.data.map Char.toLower⟩

namespace Client

/-- `clear_cache` (`src/gateway/client.rs:270-274`): clears the schema
cache. -/
def clear_cache (c : ClientState) : ClientState :=
  { c with schema_cache := [] }

/-- The method collection of `convert_openapi_to_routes`
(`src/gateway/client.rs:175-184`): keys that exactly match one of the seven
lowercase verbs (a case-sensitive `matches!`), uppercased, in source
order. -/
def openapi_route_methods (path_obj : List (String × Json)) : List String :=
  ((path_obj.map Prod.fst).filter
    (fun k => k = "get" || k = "post" || k = "put" || k = "delete" ||
      k = "patch" || k = "options" || k = "head")).map toUpperAscii

/-- The route record built by `convert_openapi_to_routes`
(`src/gateway/client.rs:187-199`), with
`base_url = "http://<service_name>:8080"`. -/
def openapi_route (manifest : SchemaManifest) (path : String)
    (methods : List String) : ServiceRoute :=
  { path := path,
    methods := methods,
    target_url := "http://" ++ manifest.service_name ++ ":8080" ++ path,
    health_url := "http://" ++ manifest.service_name ++ ":8080" ++
      manifest.endpoints.health,
    service_name := manifest.service_name,
    service_version := manifest.service_version,
    middleware := [],
    metadata := [("schema_type", Json.str "openapi")] }

/-- `convert_openapi_to_routes` (`src/gateway/client.rs:163-206`): for each
path whose item is an object, collect the methods; a route is appended only
when that list is non-empty. -/
def convert_openapi_to_routes (manifest : SchemaManifest) (schema : Json) :
    List ServiceRoute :=
  match (schema.get "paths").bind Json.asObject with
  | none => []
  | some paths =>
    paths.foldl
      (fun routes pv =>
        match pv.2.asObject with
        | none => routes
        | some path_obj =>
          let methods := openapi_route_methods path_obj
          if methods.isEmpty then routes
          else routes ++ [openapi_route manifest pv.1 methods])
      []

end Client

/-- Modelled from the wording of claim C7: one route for every path in the
paths object; its methods are the path item's keys that belong to the verb
set matched case-insensitively, uppercased, in source order. -/
def specOpenapiRoutes (manifest : SchemaManifest) (schema : Json) :
    List ServiceRoute :=
  match (schema.get "paths").bind Json.asObject with
  | none => []
  | some paths =>
    let base_url := "http://" ++ manifest.service_name ++ ":8080"
    paths.map (fun pv =>
      let keys := ((pv.2.asObject).getD []).map Prod.fst
      let methods := (keys.filter (fun k =>
        ["get", "post", "put", "delete", "patch", "options", "head"].contains
          (toLowerAscii k))).map toUpperAscii
      { path := pv.1,
        methods := methods,
        target_url := base_url ++ pv.1,
        health_url := base_url ++ manifest.endpoints.health,
        service_name := manifest.service_name,
        service_version := manifest.service_version,
        middleware := [],
        metadata := [("schema_type", Json.str "openapi")] })

/-- Modelled from the amended claim C7: one route for exactly those paths
whose item is a JSON object with at least one key exactly matching one of
the seven lowercase verbs; its methods are those keys uppercased in source
order, with the stated target and health URLs. -/
def specOpenapiRoutesAmended (manifest : SchemaManifest) (schema : Json) :
    List ServiceRoute :=
  match (schema.get "paths").bind Json.asObject with
  | none => []
  | some paths =>
    paths.filterMap (fun pv =>
      (pv.2.asObject).bind (fun path_obj =>
        let methods := Client.openapi_route_methods path_obj
        if methods.isEmpty then none
        else some (Client.openapi_route manifest pv.1 methods)))

/-! ## `src/merger/types.rs` — simplified OpenAPI object model

Values the merger only moves around by key and never inspects
(`Response`, component `Parameter`, `RequestBody`, `SecurityScheme`,
`Contact`, `License`) are carried as uninterpreted JSON. -/

/-- `Info`. -/
structure Info where
  title : String
  description : Option String
  version : String
  terms_of_service : Option String
  contact : Option Json
  license : Option Json
  extensions : List (String × Json)

/-- `Server` (`src/merger/types.rs`); `variables` rendered `vars`,
uninterpreted. -/
structure Server where
  url : String
  description : Option String
  vars : Option Json

/-- `Parameter` (operation-level); source field `example` is rendered
`example_value`. -/
structure Parameter where
  name : String
  in_ : String
  description : Option String
  required : Option Bool
  schema : Option Json
  example_value : Option Json

/-- `Operation`; `request_body` and `responses` are never inspected. -/
structure Operation where
  operation_id : Option String
  summary : Option String
  description : Option String
  tags : List String
  parameters : List Parameter
  request_body : Option Json
  responses : Option Json
  security : List (List (String × List String))
  deprecated : Option Bool
  extensions : List (String × Json)

/-- `PathItem`. -/
structure PathItem where
  summary : Option String
  description : Option String
  get : Option Operation
  put : Option Operation
  post : Option Operation
  delete : Option Operation
  options : Option Operation
  head : Option Operation
  patch : Option Operation
  trace : Option Operation
  parameters : List Parameter
  extensions : List (String × Json)

/-- `Components`; the map values other than `schemas` are uninterpreted. -/
structure Components where
  schemas : List (String × Json)
  responses : List (String × Json)
  parameters : List (String × Json)
  request_bodies : List (String × Json)
  headers : List (String × Json)
  security_schemes : List (String × Json)

/-- `Tag`. -/
structure Tag where
  name : String
  description : Option String
  extensions : List (String × Json)

/-- `OpenAPISpec`. -/
structure OpenAPISpec where
  openapi : String
  info : Info
  servers : List Server
  paths : List (String × PathItem)
  components : Option Components
  security : List (List (String × List String))
  tags : List Tag
  extensions : List (String × Json)

/-! ## `src/merger/mod.rs` — merger configuration and results -/

/-- `MergerConfig`. -/
structure MergerConfig where
  default_conflict_strategy : ConflictStrategy
  merged_title : String
  merged_description : String
  merged_version : String
  include_service_tags : Bool
  sort_output : Bool
  servers : List Server

/-- `MergerConfig::default`. -/
def MergerConfig.default : MergerConfig where
  default_conflict_strategy := .pfx
  merged_title := "Federated API"
  merged_description := "Merged API specification from multiple services"
  merged_version := "1.0.0"
  include_service_tags := true
  sort_output := true
  servers := []

/-- `ServiceSchema`. -/
structure ServiceSchema where
  manifest : SchemaManifest
  schema : Json
  parsed : Option OpenAPISpec

/-- `ConflictType`. -/
inductive ConflictType where
  | Path | Component | Tag | OperationID | SecurityScheme
deriving DecidableEq

/-- `Conflict`. -/
structure Conflict where
  conflict_type : ConflictType
  item : String
  services : List String
  resolution : String
  strategy : ConflictStrategy

/-- `MergeResult`. -/
structure MergeResult where
  spec : OpenAPISpec
  included_services : List String
  excluded_services : List String
  conflicts : List Conflict
  warnings : List String

/-! ## `src/merger/openapi.rs` — parsing and path-item manipulation -/

/-- `parse_operation_public` (`src/merger/openapi.rs:174-210`). -/
def parse_operation_public (obj : List (String × Json)) : Operation where
  operation_id := (alookup obj "operationId").bind Json.asStr
  summary := (alookup obj "summary").bind Json.asStr
  description := (alookup obj "description").bind Json.asStr
  tags :=
    match (alookup obj "tags") with
    | some (.arr items) => items.filterMap Json.asStr
    | _ => []
  parameters := []
  request_body := none
  responses := none
  security := []
  deprecated :=
    match alookup obj "deprecated" with
    | some (.bool b) => some b
    | _ => none
  extensions := obj.filter (fun kv => kv.1.startsWith "x-")

/-- `parse_path_item` (`src/merger/openapi.rs:123-172`). -/
def parse_path_item (obj : List (String × Json)) : PathItem where
  summary := (alookup obj "summary").bind Json.asStr
  description := (alookup obj "description").bind Json.asStr
  get := ((alookup obj "get").bind Json.asObject).map parse_operation_public
  put := ((alookup obj "put").bind Json.asObject).map parse_operation_public
  post := ((alookup obj "post").bind Json.asObject).map parse_operation_public
  delete := ((alookup obj "delete").bind Json.asObject).map parse_operation_public
  options := ((alookup obj "options").bind Json.asObject).map parse_operation_public
  head := ((alookup obj "head").bind Json.asObject).map parse_operation_public
  patch := ((alookup obj "patch").bind Json.asObject).map parse_operation_public
  trace := ((alookup obj "trace").bind Json.asObject).map parse_operation_public
  parameters := []
  extensions := obj.filter (fun kv => kv.1.startsWith "x-")

/-- `parse_paths` (`src/merger/openapi.rs:114-121`). -/
def parse_paths (obj : List (String × Json)) : List (String × PathItem) :=
  obj.filterMap (fun kv => (kv.2.asObject).map (fun o => (kv.1, parse_path_item o)))

/-- `parse_info_public` (`src/merger/openapi.rs:64-96`). -/
def parse_info_public (value : Option Json) : Except Err Info :=
  match value.bind Json.asObject with
  | none => .error (.InvalidSchema "missing or invalid info")
  | some info =>
    match (alookup info "title").bind Json.asStr with
    | none => .error (.InvalidSchema "missing info.title")
    | some title =>
      match (alookup info "version").bind Json.asStr with
      | none => .error (.InvalidSchema "missing info.version")
      | some version =>
        .ok {
          title := title,
          description := (alookup info "description").bind Json.asStr,
          version := version,
          terms_of_service := (alookup info "termsOfService").bind Json.asStr,
          contact := none,
          license := none,
          extensions := info.filter (fun kv => kv.1.startsWith "x-") }

/-- `parse_servers` (`src/merger/openapi.rs:98-112`). -/
def parse_servers (arr : List Json) : List Server :=
  (arr.filterMap Json.asObject).filterMap (fun obj =>
    ((alookup obj "url").bind Json.asStr).map (fun url =>
      { url := url,
        description := (alookup obj "description").bind Json.asStr,
        vars := none }))

/-- `parse_components` (`src/merger/openapi.rs:212-232`). -/
def parse_components (obj : List (String × Json)) : Components where
  schemas := ((alookup obj "schemas").bind Json.asObject).getD []
  responses := []
  parameters := []
  request_bodies := []
  headers := []
  security_schemes := []

/-- `parse_tags` (`src/merger/openapi.rs:234-252`). -/
def parse_tags (arr : List Json) : List Tag :=
  (arr.filterMap Json.asObject).filterMap (fun obj =>
    ((alookup obj "name").bind Json.asStr).map (fun name =>
      { name := name,
        description := (alookup obj "description").bind Json.asStr,
        extensions := obj.filter (fun kv => kv.1.startsWith "x-") }))

/-- `parse_openapi_schema` (`src/merger/openapi.rs:9-62`). -/
def parse_openapi_schema (raw : Json) : Except Err OpenAPISpec :=
  match raw.asObject with
  | none => .error (.InvalidSchema "schema must be an object")
  | some schema_map =>
    match (alookup schema_map "openapi").bind Json.asStr with
    | none => .error (.InvalidSchema "missing openapi version")
    | some openapi =>
      match parse_info_public (alookup schema_map "info") with
      | .error e => .error e
      | .ok info =>
        .ok {
          openapi := openapi,
          info := info,
          servers :=
            match alookup schema_map "servers" with
            | some (.arr items) => parse_servers items
            | _ => [],
          paths := ((alookup schema_map "paths").bind Json.asObject).map parse_paths |>.getD [],
          components := ((alookup schema_map "components").bind Json.asObject).map parse_components,
          security := [],
          tags :=
            match alookup schema_map "tags" with
            | some (.arr items) => parse_tags items
            | _ => [],
          extensions := schema_map.filter (fun kv => kv.1.startsWith "x-") }

/-- `apply_mount_strategy` (`src/merger/openapi.rs:268-290`). -/
def apply_mount_strategy (path : String) (manifest : SchemaManifest) : String :=
  match manifest.routing.strategy with
  | .Root => path
  | .Instance => "/" ++ manifest.instance_id ++ path
  | .Service => "/" ++ manifest.service_name ++ path
  | .Versioned => "/" ++ manifest.service_name ++ "/" ++ manifest.service_version ++ path
  | .Custom =>
    match manifest.routing.base_path with
    | some base_path => base_path ++ path
    | none => path
  | .Subdomain => path

/-- `apply_routing` (`src/merger/openapi.rs:255-266`). -/
def apply_routing (paths : List (String × PathItem)) (manifest : SchemaManifest) :
    List (String × PathItem) :=
  paths.map (fun kv => (apply_mount_strategy kv.1 manifest, kv.2))

/-- `prefix_component_names` (`src/merger/openapi.rs:293-322`): rekey
schemas, responses, parameters and request bodies with `<prefix>_`;
security-scheme names are left alone. -/
def prefix_component_names (components : Components) (pfx : String) : Components :=
  if pfx = "" then components
  else
    { schemas := components.schemas.map (fun kv => (pfx ++ "_" ++ kv.1, kv.2)),
      responses := components.responses.map (fun kv => (pfx ++ "_" ++ kv.1, kv.2)),
      parameters := components.parameters.map (fun kv => (pfx ++ "_" ++ kv.1, kv.2)),
      request_bodies := components.request_bodies.map (fun kv => (pfx ++ "_" ++ kv.1, kv.2)),
      headers := [],
      security_schemes := components.security_schemes }

/-- The `apply_to_op` closure of `apply_operation_prefixes`
(`src/merger/openapi.rs:333-366`), threading the seen-operation-id map and
the result through. -/
def apply_to_op (op : Option Operation) (op_id_pfx tag_pfx service_name : String)
    (seen_operation_ids : List (String × String)) (result : MergeResult) :
    Option Operation × List (String × String) × MergeResult :=
  match op with
  | none => (none, seen_operation_ids, result)
  | some operation =>
    let (operation, seen, result) :=
      match operation.operation_id with
      | some original_id =>
        let new_id := if op_id_pfx ≠ "" then op_id_pfx ++ "_" ++ original_id else original_id
        let result :=
          match alookup seen_operation_ids new_id with
          | some existing_service =>
            { result with conflicts := result.conflicts ++
                [({ conflict_type := .OperationID,
                    item := original_id,
                    services := [existing_service, service_name],
                    resolution := "Prefixed to " ++ new_id,
                    strategy := .pfx } : Conflict)] }
          | none => result
        ({ operation with operation_id := some new_id },
         ainsert seen_operation_ids new_id service_name, result)
      | none => (operation, seen_operation_ids, result)
    let operation :=
      if tag_pfx ≠ "" then
        { operation with tags := operation.tags.map (fun tag => tag_pfx ++ "_" ++ tag) }
      else operation
    (some operation, seen, result)

/-- `apply_operation_prefixes` (`src/merger/openapi.rs:325-378`), applied to
the eight slots in source call order: get, post, put, delete, patch,
options, head, trace. -/
def apply_operation_prefixes_fn (item : PathItem)
    (op_id_pfx tag_pfx service_name : String)
    (seen_operation_ids : List (String × String)) (result : MergeResult) :
    PathItem × List (String × String) × MergeResult :=
  let (g, seen, result) := apply_to_op item.get op_id_pfx tag_pfx service_name seen_operation_ids result
  let (po, seen, result) := apply_to_op item.post op_id_pfx tag_pfx service_name seen result
  let (pu, seen, result) := apply_to_op item.put op_id_pfx tag_pfx service_name seen result
  let (de, seen, result) := apply_to_op item.delete op_id_pfx tag_pfx service_name seen result
  let (pa, seen, result) := apply_to_op item.patch op_id_pfx tag_pfx service_name seen result
  let (op, seen, result) := apply_to_op item.options op_id_pfx tag_pfx service_name seen result
  let (he, seen, result) := apply_to_op item.head op_id_pfx tag_pfx service_name seen result
  let (tr, seen, result) := apply_to_op item.trace op_id_pfx tag_pfx service_name seen result
  ({ item with get := g, post := po, put := pu, delete := de,
               patch := pa, options := op, head := he, trace := tr },
   seen, result)

/-- `merge_path_items` (`src/merger/openapi.rs:381-404`): per slot the new
side wins where present (`new.x.or(existing.x)`); parameters are
concatenated existing-then-new; extensions are extended with the new side
overriding. -/
def merge_path_items (existing new : PathItem) : PathItem where
  summary := new.summary.or existing.summary
  description := new.description.or existing.description
  get := new.get.or existing.get
  post := new.post.or existing.post
  put := new.put.or existing.put
  delete := new.delete.or existing.delete
  patch := new.patch.or existing.patch
  options := new.options.or existing.options
  head := new.head.or existing.head
  trace := new.trace.or existing.trace
  parameters := existing.parameters ++ new.parameters
  extensions := aextend existing.extensions new.extensions

/-! ## `src/merger/mod.rs` — the merge procedure -/

/-- The descriptor loop of `should_include_in_merge`
(`src/merger/mod.rs:419-434`): the first OpenAPI descriptor decides;
composition's `include_in_merged` when fully present, else include. -/
def should_include_in_merge_desc : List SchemaDescriptor → Bool
  | [] => false
  | sd :: rest =>
    if sd.schema_type = SchemaType.OpenAPI then
      match sd.metadata with
      | some md =>
        match md.openapi with
        | some om =>
          match om.composition with
          | some comp => comp.include_in_merged
          | none => true
        | none => true
      | none => true
    else should_include_in_merge_desc rest

/-- `should_include_in_merge`. -/
def should_include_in_merge (schema : ServiceSchema) : Bool :=
  should_include_in_merge_desc schema.manifest.schemas

/-- The descriptor loop of `get_composition_config`
(`src/merger/mod.rs:436-447`): the first OpenAPI descriptor with an
`openapi` metadata bag returns its (possibly absent) composition. -/
def get_composition_config_desc : List SchemaDescriptor → Option CompositionConfig
  | [] => none
  | sd :: rest =>
    if sd.schema_type = SchemaType.OpenAPI then
      match sd.metadata with
      | some md =>
        match md.openapi with
        | some om => om.composition
        | none => get_composition_config_desc rest
      | none => get_composition_config_desc rest
    else get_composition_config_desc rest

/-- `get_composition_config`. -/
def get_composition_config (manifest : SchemaManifest) : Option CompositionConfig :=
  get_composition_config_desc manifest.schemas

/-- `get_component_prefix` (`src/merger/mod.rs:449-456`), rendered with
`_pfx`. -/
def get_component_pfx (manifest : SchemaManifest)
    (config : Option CompositionConfig) : String :=
  (config.bind (fun c => c.component_pfx)).getD manifest.service_name

/-- `get_tag_prefix` (`src/merger/mod.rs:458-465`), rendered with `_pfx`. -/
def get_tag_pfx (manifest : SchemaManifest)
    (config : Option CompositionConfig) : String :=
  (config.bind (fun c => c.tag_pfx)).getD manifest.service_name

/-- `get_operation_id_prefix` (`src/merger/mod.rs:467-474`), rendered with
`_pfx`. -/
def get_operation_id_pfx (manifest : SchemaManifest)
    (config : Option CompositionConfig) : String :=
  (config.bind (fun c => c.operation_id_pfx)).getD manifest.service_name

/-- `Merger::get_conflict_strategy` (`src/merger/mod.rs:407-414`). -/
def Merger.get_conflict_strategy (config : MergerConfig)
    (comp : Option CompositionConfig) : ConflictStrategy :=
  (comp.map (fun c => c.conflict_strategy)).getD config.default_conflict_strategy

/-- The empty `MergeResult` built at the top of `Merger::merge`
(`src/merger/mod.rs:126-156`). -/
def Merger.init_result (config : MergerConfig) : MergeResult where
  spec := {
    openapi := "3.1.0",
    info := {
      title := config.merged_title,
      description := some config.merged_description,
      version := config.merged_version,
      terms_of_service := none, contact := none, license := none,
      extensions := [] },
    servers := config.servers,
    paths := [],
    components := some {
      schemas := [], responses := [], parameters := [],
      request_bodies := [], headers := [], security_schemes := [] },
    security := [],
    tags := [],
    extensions := [] }
  included_services := []
  excluded_services := []
  conflicts := []
  warnings := []

/-- The merge-loop working state: the accumulating result and the five
`seen_*` conflict-tracking maps of `Merger::merge`
(`src/merger/mod.rs:159-163`). -/
structure MergeState where
  result : MergeResult
  seen_paths : List (String × String)
  seen_components : List (String × String)
  seen_operation_ids : List (String × String)
  seen_tags : List (String × Tag)
  seen_security_schemes : List (String × String)

/-- Outcome of the path-conflict `match` (`src/merger/mod.rs:206-249`):
either the iteration is skipped, or it proceeds with a possibly rewritten
path and item. -/
inductive PathStep where
  | skipped (result : MergeResult)
  | proceed (path : String) (item : PathItem) (result : MergeResult)

/-- The path-conflict branch of `Merger::merge`
(`src/merger/mod.rs:206-249`). -/
def path_conflict_step (strategy : ConflictStrategy) (service_name : String)
    (st : MergeState) (path : String) (path_item : PathItem) :
    Except Err PathStep :=
  match alookup st.seen_paths path with
  | none => .ok (.proceed path path_item st.result)
  | some existing_service =>
    let conflict : Conflict := {
      conflict_type := .Path, item := path,
      services := [existing_service, service_name],
      resolution := "", strategy := strategy }
    match strategy with
    | .error =>
      .error (.Custom ("path conflict: " ++ path ++ " exists in both " ++
        existing_service ++ " and " ++ service_name))
    | .skip =>
      .ok (.skipped { st.result with conflicts := st.result.conflicts ++
        [{ conflict with resolution := "Skipped path from " ++ service_name }] })
    | .overwrite =>
      .ok (.proceed path path_item { st.result with conflicts := st.result.conflicts ++
        [{ conflict with resolution := "Overwritten with " ++ service_name ++ " version" }] })
    | .pfx =>
      let new_path := "/" ++ service_name ++ path
      .ok (.proceed new_path path_item { st.result with conflicts := st.result.conflicts ++
        [{ conflict with resolution := "Prefixed to " ++ new_path }] })
    | .merge =>
      let merged :=
        match alookup st.result.spec.paths path with
        | some existing => merge_path_items existing path_item
        | none => path_item
      .ok (.proceed path merged { st.result with conflicts := st.result.conflicts ++
        [{ conflict with resolution := "Merged operations" }] })

/-- One iteration of the path loop (`src/merger/mod.rs:204-263`): conflict
branch, operation-id/tag prefixing, insertion. -/
def merge_one_path (strategy : ConflictStrategy)
    (service_name op_id_pfx tag_pfx : String)
    (st : MergeState) (path : String) (path_item : PathItem) :
    Except Err MergeState :=
  match path_conflict_step strategy service_name st path path_item with
  | .error e => .error e
  | .ok (.skipped result) => .ok { st with result := result }
  | .ok (.proceed path item result) =>
    let (item, seen_ops, result) :=
      apply_operation_prefixes_fn item op_id_pfx tag_pfx service_name
        st.seen_operation_ids result
    .ok { st with
      result := { result with
        spec := { result.spec with paths := ainsert result.spec.paths path item } },
      seen_paths := ainsert st.seen_paths path service_name,
      seen_operation_ids := seen_ops }

/-- The path loop of `Merger::merge`. -/
def merge_paths_loop (strategy : ConflictStrategy)
    (service_name op_id_pfx tag_pfx : String) :
    MergeState → List (String × PathItem) → Except Err MergeState
  | st, [] => .ok st
  | st, (p, it) :: rest =>
    match merge_one_path strategy service_name op_id_pfx tag_pfx st p it with
    | .error e => .error e
    | .ok st' => merge_paths_loop strategy service_name op_id_pfx tag_pfx st' rest

/-- Insert one component schema into the merged spec
(`src/merger/mod.rs:290-294`; a no-op when `components` is absent). -/
def spec_insert_schema (spec : OpenAPISpec) (name : String) (v : Json) : OpenAPISpec :=
  match spec.components with
  | some comps =>
    let comps := { comps with schemas := ainsert comps.schemas name v }
    { spec with components := some comps }
  | none => spec

/-- The component-schema loop of `Merger::merge`
(`src/merger/mod.rs:269-296`). -/
def merge_component_schemas (strategy : ConflictStrategy) (service_name : String) :
    MergeState → List (String × Json) → MergeState
  | st, [] => st
  | st, (name, schema_obj) :: rest =>
    match alookup st.seen_components name with
    | some existing_service =>
      let conflict : Conflict := {
        conflict_type := .Component, item := name,
        services := [existing_service, service_name],
        resolution :=
          if strategy = ConflictStrategy.skip then "Skipped component from " ++ service_name
          else "Overwritten with " ++ service_name ++ " version",
        strategy := strategy }
      let result := { st.result with conflicts := st.result.conflicts ++ [conflict] }
      if strategy = ConflictStrategy.skip then
        merge_component_schemas strategy service_name { st with result := result } rest
      else
        merge_component_schemas strategy service_name
          { st with
            result := { result with spec := spec_insert_schema result.spec name schema_obj },
            seen_components := ainsert st.seen_components name service_name } rest
    | none =>
      merge_component_schemas strategy service_name
        { st with
          result := { st.result with
            spec := spec_insert_schema st.result.spec name schema_obj },
          seen_components := ainsert st.seen_components name service_name } rest

/-- Insert one security scheme into the merged spec's components. -/
def spec_insert_scheme (spec : OpenAPISpec) (name : String) (v : Json) : OpenAPISpec :=
  match spec.components with
  | some comps =>
    let comps := { comps with security_schemes := ainsert comps.security_schemes name v }
    { spec with components := some comps }
  | none => spec

/-- The security-scheme loop of `Merger::merge`
(`src/merger/mod.rs:316-370`), running inside the `components.as_mut()`
block. -/
def merge_security_schemes (strategy : ConflictStrategy) (service_name : String) :
    MergeState → List (String × Json) → Except Err MergeState
  | st, [] => .ok st
  | st, (name, scheme) :: rest =>
    match alookup st.seen_security_schemes name with
    | none =>
      merge_security_schemes strategy service_name
        { st with
          result := { st.result with spec := spec_insert_scheme st.result.spec name scheme },
          seen_security_schemes := ainsert st.seen_security_schemes name service_name } rest
    | some existing_service =>
      let conflict : Conflict := {
        conflict_type := .SecurityScheme, item := name,
        services := [existing_service, service_name],
        resolution := "", strategy := strategy }
      match strategy with
      | .error =>
        .error (.Custom ("security scheme conflict: " ++ name ++ " exists in both " ++
          existing_service ++ " and " ++ service_name))
      | .skip =>
        merge_security_schemes strategy service_name
          { st with result := { st.result with conflicts := st.result.conflicts ++
            [{ conflict with resolution := "Skipped security scheme from " ++ service_name }] } }
          rest
      | .pfx =>
        let prefixed_name := service_name ++ "_" ++ name
        merge_security_schemes strategy service_name
          { st with
            result := { st.result with
              conflicts := st.result.conflicts ++
                [{ conflict with resolution := "Prefixed to " ++ prefixed_name }],
              spec := spec_insert_scheme st.result.spec prefixed_name scheme },
            seen_security_schemes :=
              ainsert st.seen_security_schemes prefixed_name service_name } rest
      | .overwrite =>
        merge_security_schemes strategy service_name
          { st with
            result := { st.result with
              conflicts := st.result.conflicts ++
                [{ conflict with resolution := "Overwritten with " ++ service_name ++ " version" }],
              spec := spec_insert_scheme st.result.spec name scheme },
            seen_security_schemes := ainsert st.seen_security_schemes name service_name } rest
      | .merge =>
        merge_security_schemes strategy service_name
          { st with
            result := { st.result with
              conflicts := st.result.conflicts ++
                [{ conflict with resolution := "Merged (overwritten) with " ++ service_name ++ " version" }],
              spec := spec_insert_scheme st.result.spec name scheme },
            seen_security_schemes := ainsert st.seen_security_schemes name service_name } rest

/-- The component block of `Merger::merge` (`src/merger/mod.rs:266-372`):
the schema loop, then—inside the `components.as_mut()` block—the
unconditional responses/parameters/request-bodies overwrites and the
security-scheme loop. -/
def merge_components (strategy : ConflictStrategy) (service_name : String)
    (st : MergeState) (prefixed : Components) : Except Err MergeState :=
  let st := merge_component_schemas strategy service_name st prefixed.schemas
  match st.result.spec.components with
  | none => .ok st
  | some comps =>
    let comps := { comps with
      responses := aextend comps.responses prefixed.responses,
      parameters := aextend comps.parameters prefixed.parameters,
      request_bodies := aextend comps.request_bodies prefixed.request_bodies }
    let st := { st with result := { st.result with
      spec := { st.result.spec with components := some comps } } }
    merge_security_schemes strategy service_name st prefixed.security_schemes

/-- `result.spec.tags[pos] = updated` keyed by name
(`src/merger/mod.rs:387-390`). -/
def replaceTagByName : List Tag → String → Tag → List Tag
  | [], _, _ => []
  | t :: ts, name, updated =>
    if t.name = name then updated :: ts else t :: replaceTagByName ts name updated

/-- The tag loop of `Merger::merge` (`src/merger/mod.rs:374-396`). -/
def merge_tags_loop (include_service_tags : Bool) (tag_pfx : String) :
    MergeState → List Tag → MergeState
  | st, [] => st
  | st, tag :: rest =>
    let tag :=
      if tag_pfx ≠ "" && include_service_tags then
        { tag with name := tag_pfx ++ "_" ++ tag.name }
      else tag
    let st :=
      match alookup st.seen_tags tag.name with
      | some existing =>
        if tag.description.isSome && existing.description.isNone then
          let updated := { existing with description := tag.description }
          { st with
            seen_tags := ainsert st.seen_tags tag.name updated,
            result := { st.result with spec := { st.result.spec with
              tags := replaceTagByName st.result.spec.tags tag.name updated } } }
        else st
      | none =>
        { st with
          seen_tags := ainsert st.seen_tags tag.name tag,
          result := { st.result with spec := { st.result.spec with
            tags := st.result.spec.tags ++ [tag] } } }
    merge_tags_loop include_service_tags tag_pfx st rest

/-- One iteration of the per-service loop of `Merger::merge`
(`src/merger/mod.rs:166-397`): inclusion check, parse (warning and skip on
failure, after the service is already recorded as included), prefixes,
routing, paths, components, tags. -/
def process_service (config : MergerConfig) (st : MergeState)
    (schema : ServiceSchema) : Except Err MergeState :=
  let service_name := schema.manifest.service_name
  if !should_include_in_merge schema then
    .ok { st with result := { st.result with
      excluded_services := st.result.excluded_services ++ [service_name] } }
  else
    let st := { st with result := { st.result with
      included_services := st.result.included_services ++ [service_name] } }
    match (match schema.parsed with
           | some p => Except.ok p
           | none => parse_openapi_schema schema.schema) with
    | .error e =>
      .ok { st with result := { st.result with
        warnings := st.result.warnings ++
          ["Failed to parse schema for " ++ service_name ++ ": " ++ e.display] } }
    | .ok parsed =>
      let comp_config := get_composition_config schema.manifest
      let strategy := Merger.get_conflict_strategy config comp_config
      let component_pfx := get_component_pfx schema.manifest comp_config
      let tag_pfx := get_tag_pfx schema.manifest comp_config
      let operation_id_pfx := get_operation_id_pfx schema.manifest comp_config
      let paths := apply_routing parsed.paths schema.manifest
      match merge_paths_loop strategy service_name operation_id_pfx tag_pfx st paths with
      | .error e => .error e
      | .ok st =>
        let after_components :=
          match parsed.components with
          | some components =>
            merge_components strategy service_name st
              (prefix_component_names components component_pfx)
          | none => Except.ok st
        match after_components with
        | .error e => .error e
        | .ok st =>
          .ok (merge_tags_loop config.include_service_tags tag_pfx st parsed.tags)

/-- The per-service loop of `Merger::merge`. -/
def merge_loop (config : MergerConfig) :
    MergeState → List ServiceSchema → Except Err MergeState
  | st, [] => .ok st
  | st, sch :: rest =>
    match process_service config st sch with
    | .error e => .error e
    | .ok st' => merge_loop config st' rest

/-- `Merger::merge` (`src/merger/mod.rs:125-405`). -/
def Merger.merge (config : MergerConfig) (schemas : List ServiceSchema) :
    Except Err MergeResult :=
  let init : MergeState := {
    result := Merger.init_result config,
    seen_paths := [], seen_components := [], seen_operation_ids := [],
    seen_tags := [], seen_security_schemes := [] }
  match merge_loop config init schemas with
  | .error e => .error e
  | .ok st =>
    let result := st.result
    .ok (if config.sort_output then
      { result with spec := { result.spec with
        tags := sortByKey (fun t => t.name) result.spec.tags } }
    else result)

/-! ## Concrete inputs used by the claim theorems and witnesses -/

/-- Endpoint block with only the required health endpoint. -/
def endpointsW : SchemaEndpoints :=
  { health := "/health", metrics := none, openapi := none, asyncapi := none,
    grpc_reflection := false, graphql := none }

/-- Routing at the gateway root. -/
def routingRoot : RoutingConfig :=
  { strategy := .Root, base_path := none, subdomain := none, rewrite := [],
    strip_pfx := false, priority := none, tags := [] }

/-- A minimal valid manifest (protocol version `1.0.0`, no descriptors, no
checksum). -/
def manifestW : SchemaManifest :=
  { version := "1.0.0", service_name := "test-service", service_version := "v1.0.0",
    instance_id := "instance-1", instance_md := none, schemas := [], capabilities := [],
    endpoints := endpointsW, routing := routingRoot, auth := none, webhook := none,
    hints := none, updated_at := 0, checksum := "" }

/-- A manifest failing validation: empty service name. -/
def manifestBad : SchemaManifest := { manifestW with service_name := "" }

/-- The empty, open registry. -/
def regEmpty : RegistryState :=
  { manifests := [], schemas := [], watchers := [], closed := false }

/-- An operation with id `a`. -/
def opA : Operation :=
  { operation_id := some "a", summary := none, description := none, tags := [],
    parameters := [], request_body := none, responses := none, security := [],
    deprecated := none, extensions := [] }

/-- An operation with id `b`. -/
def opB : Operation := { opA with operation_id := some "b" }

/-- A path item whose `get` slot holds `opA`. -/
def itemE : PathItem :=
  { summary := none, description := none, get := some opA, put := none, post := none,
    delete := none, options := none, head := none, patch := none, trace := none,
    parameters := [], extensions := [] }

/-- A path item whose `get` slot holds `opB`. -/
def itemN : PathItem := { itemE with get := some opB }

/-- A descriptor whose hash is 64 `Z` characters — the right length but not
hexadecimal. -/
def c3desc : SchemaDescriptor :=
  { schema_type := .OpenAPI, spec_version := "3.1.0",
    location := { location_type := .HTTP, url := some "http://example.com",
                  registry_path := none, headers := none },
    content_type := "application/json", inline_schema := none,
    hash := ⟨List.replicate 64 'Z'⟩, size := 1024,
    compatibility := none, metadata := none }

/-- An OpenAPI schema whose single path item carries only the uppercase key
`GET`. -/
def c7schema : Json :=
  Json.obj [("paths", Json.obj [("/p", Json.obj [("GET", Json.obj [])])])]

/-- A client state with one cached manifest and one cached schema. -/
def c8client : ClientState :=
  { manifest_cache := [("instance-1", manifestW)],
    schema_cache := [("deadbeef", Json.null)] }

/-- An inline OpenAPI descriptor with no composition metadata. -/
def descInlineW : SchemaDescriptor :=
  { schema_type := .OpenAPI, spec_version := "3.1.0",
    location := { location_type := .Inline, url := none, registry_path := none,
                  headers := none },
    content_type := "application/json", inline_schema := none, hash := "", size := 0,
    compatibility := none, metadata := none }

/-- A service whose raw schema is not a JSON object, so OpenAPI parsing
fails. -/
def svcBadParse : ServiceSchema :=
  { manifest := { manifestW with schemas := [descInlineW] },
    schema := Json.str "not an object", parsed := none }

/-- The initial merge-loop state of `Merger::merge` under the default
configuration. -/
def mergeStateW : MergeState :=
  { result := Merger.init_result MergerConfig.default,
    seen_paths := [], seen_components := [], seen_operation_ids := [],
    seen_tags := [], seen_security_schemes := [] }

/-! ## Association-list lemmas -/

theorem alookup_ainsert {α : Type} (l : List (String × α)) (k : String) (v : α)
    (key : String) :
    alookup (ainsert l k v) key = if key = k then some v else alookup l key := by
  induction l with
  | nil =>
    by_cases h : key = k
    · simp [ainsert, alookup, h]
    · simp [ainsert, alookup, h, Ne.symm h]
  | cons p rest ih =>
    obtain ⟨pk, pv⟩ := p
    by_cases hpk : pk = k
    · subst hpk
      by_cases h : key = pk
      · subst h; simp [ainsert, alookup]
      · simp [ainsert, alookup, h, Ne.symm h]
    · by_cases h : key = pk
      · subst h
        simp [ainsert, alookup, hpk, Ne.symm hpk]
      · simp [ainsert, alookup, hpk, h, Ne.symm h, ih]

theorem alookup_ainsert_self {α : Type} (l : List (String × α)) (k : String) (v : α) :
    alookup (ainsert l k v) k = some v := by
  simp [alookup_ainsert]

theorem self_mem_map_snd_ainsert {α : Type} (l : List (String × α)) (k : String)
    (v : α) : v ∈ (ainsert l k v).map Prod.snd := by
  induction l with
  | nil => simp [ainsert]
  | cons p rest ih =>
    by_cases h : p.1 = k
    · obtain ⟨pk, pv⟩ := p
      simp_all [ainsert]
    · obtain ⟨pk, pv⟩ := p
      simp only at h
      simp [ainsert, h, ih]

theorem alookup_eq_none_of_not_mem {α : Type} (l : List (String × α)) (k : String)
    (h : k ∉ l.map Prod.fst) : alookup l k = none := by
  induction l with
  | nil => rfl
  | cons p rest ih =>
    simp only [List.map_cons, List.mem_cons] at h
    push_neg at h
    simpa [alookup, Ne.symm h.1] using ih h.2

theorem alookup_aextend {α : Type} (old new : List (String × α))
    (hnd : (new.map Prod.fst).Nodup) (key : String) :
    alookup (aextend old new) key = (alookup new key).or (alookup old key) := by
  induction new generalizing old with
  | nil => simp [aextend, alookup]
  | cons p rest ih =>
    obtain ⟨k, v⟩ := p
    simp only [List.map_cons, List.nodup_cons] at hnd
    have step : aextend old ((k, v) :: rest) = aextend (ainsert old k v) rest := rfl
    rw [step, ih (ainsert old k v) hnd.2]
    by_cases h : key = k
    · subst h
      rw [alookup_eq_none_of_not_mem rest key hnd.1]
      simp [alookup, alookup_ainsert]
    · simp [alookup, Ne.symm h, h, alookup_ainsert]

/-! ## Claim theorems -/

/-- C1 (counterexample): the claim says `merge_path_items(existing, new)`
keeps the existing side's operation in every slot where the existing side is
present.  At path items whose `get` slots hold distinct operations the
result holds the NEW side's operation, so the claim as stated is false. -/
theorem c1_counterexample :
    itemE.get = some opA ∧ itemN.get = some opB ∧
    (merge_path_items itemE itemN).get = some opB ∧ opB ≠ opA := by
  refine ⟨rfl, rfl, rfl, ?_⟩
  intro h
  have hid := congrArg Operation.operation_id h
  simp [opA, opB] at hid

/-- C1 (amended): in `merge_path_items(existing, new)` each of the eight
method slots takes the NEW side's operation wherever the new side is
present, keeping the existing operation only where the new slot is absent;
the parameter lists are concatenated existing-then-new; and the extensions
maps are unioned with the new side overriding the existing on key collision
(stated through lookups, for a new side with duplicate-free extension keys
as any parsed JSON object has). -/
theorem c1_merge_path_items_amended (existing new : PathItem)
    (hnd : (new.extensions.map Prod.fst).Nodup) :
    (merge_path_items existing new).get = new.get.or existing.get ∧
    (merge_path_items existing new).post = new.post.or existing.post ∧
    (merge_path_items existing new).put = new.put.or existing.put ∧
    (merge_path_items existing new).delete = new.delete.or existing.delete ∧
    (merge_path_items existing new).patch = new.patch.or existing.patch ∧
    (merge_path_items existing new).options = new.options.or existing.options ∧
    (merge_path_items existing new).head = new.head.or existing.head ∧
    (merge_path_items existing new).trace = new.trace.or existing.trace ∧
    (merge_path_items existing new).parameters = existing.parameters ++ new.parameters ∧
    ∀ key, alookup (merge_path_items existing new).extensions key =
      (alookup new.extensions key).or (alookup existing.extensions key) := by
  refine ⟨rfl, rfl, rfl, rfl, rfl, rfl, rfl, rfl, rfl, ?_⟩
  intro key
  exact alookup_aextend existing.extensions new.extensions hnd key

/-- C1 (witness): the amended statement applied at the concrete path items,
with the duplicate-free-keys hypothesis discharged. -/
theorem c1_merge_path_items_amended_witness :
    (itemN.extensions.map Prod.fst).Nodup ∧
    alookup (merge_path_items itemE itemN).extensions "x-k" =
      (alookup itemN.extensions "x-k").or (alookup itemE.extensions "x-k") := by
  have hnd : (itemN.extensions.map Prod.fst).Nodup := by simp [itemN, itemE]
  exact ⟨hnd, (c1_merge_path_items_amended itemE itemN hnd).2.2.2.2.2.2.2.2.2 "x-k"⟩

/-- C2 (counterexample): `"1.0.x"` does not parse as three non-negative
integers — the third segment is garbage — yet `is_compatible` accepts it,
because the source never parses the patch segment. -/
theorem c2_counterexample :
    is_compatible "1.0.x" = true ∧ spec_compatible "1.0.x" = false :=
  ⟨rfl, rfl⟩

/-- C2 (amended): `is_compatible v` is true iff `v` splits on `.` into
exactly three segments, the first two parse as `u32` values with the major
equal to the protocol major and the minor at most the protocol minor; the
third segment is never parsed. -/
theorem c2_is_compatible_amended (v : String) :
    is_compatible v = true ↔
      ∃ p0 p1 p2, splitOnChar '.' v.data = [p0, p1, p2] ∧
        ∃ mj mn, parse_u32 p0 = some mj ∧ parse_u32 p1 = some mn ∧
          mj = PROTOCOL_MAJOR ∧ mn ≤ PROTOCOL_MINOR := by
  cases hs : splitOnChar '.' v.data with
  | nil => simp [is_compatible, hs]
  | cons p0 t =>
    cases t with
    | nil => simp [is_compatible, hs]
    | cons p1 t2 =>
      cases t2 with
      | nil => simp [is_compatible, hs]
      | cons p2 t3 =>
        cases t3 with
        | cons q r => simp [is_compatible, hs]
        | nil =>
          cases hp0 : parse_u32 p0 with
          | none => simp [is_compatible, hs, hp0]
          | some mj =>
            cases hp1 : parse_u32 p1 with
            | none => simp [is_compatible, hs, hp0, hp1]
            | some mn =>
              simp only [is_compatible, hs, hp0, hp1, Bool.and_eq_true,
                decide_eq_true_eq]
              constructor
              · rintro ⟨h1, h2⟩
                exact ⟨p0, p1, p2, rfl, mj, mn, hp0, hp1, h1, h2⟩
              · rintro ⟨q0, q1, q2, hq, mj', mn', hq0, hq1, hmj, hmn⟩
                obtain ⟨rfl, rfl, rfl⟩ : q0 = p0 ∧ q1 = p1 ∧ q2 = p2 := by
                  injection hq with a b
                  injection b with b c
                  injection c with c _
                  exact ⟨a.symm, b.symm, c.symm⟩
                rw [hp0] at hq0
                rw [hp1] at hq1
                injection hq0 with hq0
                injection hq1 with hq1
                exact ⟨hq0 ▸ hmj, hq1 ▸ hmn⟩

/-- C4: `calculate_manifest_checksum` returns the empty string on an empty
schema list, and otherwise the lowercase-hex SHA-256 of the concatenation
(no separator) of the descriptors' hashes sorted by the string form of
their `schema_type` — the specification-side recipe `manifestChecksumSpec`. -/
theorem c4_manifest_checksum (m : SchemaManifest) :
    calculate_manifest_checksum m = Except.ok (manifestChecksumSpec m) := by
  unfold calculate_manifest_checksum manifestChecksumSpec
  cases hm : m.schemas with
  | nil => simp [List.isEmpty]
  | cons a l =>
    simp only [List.isEmpty, sha256_hex, Except.ok.injEq]
    simp [String.join, List.foldl_map]

/-- C8 (counterexample): after `clear_cache` on a client holding one cached
manifest and one cached schema, the schema cache is empty but the manifest
cache still holds its entry — the claim that both caches are emptied is
false. -/
theorem c8_counterexample :
    (Client.clear_cache c8client).schema_cache = [] ∧
    (Client.clear_cache c8client).manifest_cache.length = 1 :=
  ⟨rfl, rfl⟩

/-- C8 (amended): `clear_cache` empties the schema cache and leaves the
manifest cache exactly as it was. -/
theorem c8_clear_cache_amended (c : ClientState) :
    (Client.clear_cache c).schema_cache = [] ∧
    (Client.clear_cache c).manifest_cache = c.manifest_cache :=
  ⟨rfl, rfl⟩

/-- Every `SchemaType` value is valid (the source's `matches!` covers all
eight variants). -/
theorem SchemaType.is_valid_eq_true (t : SchemaType) : t.is_valid = true := by
  cases t <;> rfl

/-- C3 (counterexample): a descriptor whose hash is 64 `Z` characters — not
lowercase hexadecimal — passes descriptor validation, because the source
checks only the byte length; so the claim that validation rejects every
non-64-lowercase-hex non-empty hash is false. -/
theorem c3_counterexample :
    validate_schema_descriptor c3desc = Except.ok () ∧
    isLowerHex64 c3desc.hash = false :=
  ⟨rfl, rfl⟩

/-- C3 (amended): under the checks that precede the hash checks (non-empty
spec version, well-formed location, inline schema present where required),
descriptor validation rejects on the hash exactly when the hash is empty
(`schema hash is required`) or its UTF-8 byte length is not 64
(`invalid hash format…`); no hexadecimal or case test is performed, and with
a non-empty 64-byte hash validation proceeds to the content-type check. -/
theorem c3_hash_check_amended (sd : SchemaDescriptor)
    (hsv : sd.spec_version ≠ "")
    (hloc : validate_schema_location sd.location = .ok ())
    (hinl : ¬(sd.location.location_type = LocationType.Inline ∧ sd.inline_schema.isNone)) :
    (validate_schema_descriptor sd =
        .error (.Validation "hash" "schema hash is required") ↔ sd.hash = "") ∧
    (validate_schema_descriptor sd =
        .error (.Validation "hash" "invalid hash format (expected 64 hex characters)") ↔
      (sd.hash ≠ "" ∧ strByteLen sd.hash ≠ 64)) ∧
    (sd.hash ≠ "" → strByteLen sd.hash = 64 →
      validate_schema_descriptor sd =
        (if sd.content_type = "" then
          .error (.Validation "content_type" "content type is required")
         else .ok ())) := by
  unfold validate_schema_descriptor
  rw [SchemaType.is_valid_eq_true sd.schema_type, hloc]
  simp only [Bool.not_true, Bool.false_eq_true, if_false, hsv, if_neg hsv, hinl,
    if_neg hinl]
  by_cases hh : sd.hash = ""
  · simp [hh]
  · by_cases hl : strByteLen sd.hash = 64
    · simp [hh, hl]
      by_cases hct : sd.content_type = "" <;> simp [hct]
    · simp [hh, hl]

/-- C3 (witness): the amended statement at the concrete 64-`Z` descriptor,
hypotheses discharged. -/
theorem c3_hash_check_amended_witness :
    c3desc.spec_version ≠ "" ∧
    validate_schema_location c3desc.location = .ok () ∧
    ¬(c3desc.location.location_type = LocationType.Inline ∧ c3desc.inline_schema.isNone) ∧
    (validate_schema_descriptor c3desc =
        Except.error (.Validation "hash" "schema hash is required") ↔ c3desc.hash = "") := by
  refine ⟨by decide, rfl, by decide, ?_⟩
  exact (c3_hash_check_amended c3desc (by decide) rfl (by decide)).1

/-- C5: whenever `register_manifest` succeeds, the manifest is retrievable
under its instance id, and it appears both in the listing for its service
name and in the listing for the empty (all-services) name. -/
theorem c5_register_then_visible (s : RegistryState) (m : SchemaManifest) (now : Int)
    (h : (MemoryRegistry.register_manifest s m now).result = Except.ok ()) :
    MemoryRegistry.get_manifest (MemoryRegistry.register_manifest s m now).state
      m.instance_id = Except.ok m ∧
    (∃ l, MemoryRegistry.list_manifests (MemoryRegistry.register_manifest s m now).state
        m.service_name = Except.ok l ∧ m ∈ l) ∧
    (∃ l, MemoryRegistry.list_manifests (MemoryRegistry.register_manifest s m now).state
        "" = Except.ok l ∧ m ∈ l) := by
  unfold MemoryRegistry.register_manifest at h ⊢
  by_cases hc : s.closed
  · simp [hc] at h
  · simp only [hc, if_false, Bool.false_eq_true] at h ⊢
    cases hv : m.validate with
    | error e => rw [hv] at h; simp at h
    | ok u =>
      simp only [hv] at h ⊢
      refine ⟨?_, ?_, ?_⟩
      · simp [MemoryRegistry.get_manifest, alookup_ainsert_self]
      · refine ⟨_, rfl, ?_⟩
        exact List.mem_filter.mpr ⟨self_mem_map_snd_ainsert _ _ _, by simp⟩
      · refine ⟨_, rfl, ?_⟩
        exact List.mem_filter.mpr ⟨self_mem_map_snd_ainsert _ _ _, by simp⟩

/-- C5 (witness): registering a concrete valid manifest in the empty open
registry makes it retrievable. -/
theorem c5_register_then_visible_witness :
    (MemoryRegistry.register_manifest regEmpty manifestW 0).result = Except.ok () ∧
    MemoryRegistry.get_manifest (MemoryRegistry.register_manifest regEmpty manifestW 0).state
      manifestW.instance_id = Except.ok manifestW := by
  have h : (MemoryRegistry.register_manifest regEmpty manifestW 0).result = Except.ok () := rfl
  exact ⟨h, (c5_register_then_visible regEmpty manifestW 0 h).1⟩

/-- C6: when a manifest fails validation, `register_manifest` and
`update_manifest` leave the whole registry state (manifest map, schema map,
watcher list, closed flag) unchanged and dispatch no event; on an open
registry both calls return exactly the validation error. -/
theorem c6_validation_failure_no_mutation (s : RegistryState) (m : SchemaManifest)
    (now : Int) (e : Err) (h : m.validate = .error e) :
    (MemoryRegistry.register_manifest s m now).state = s ∧
    (MemoryRegistry.register_manifest s m now).sent = [] ∧
    (MemoryRegistry.update_manifest s m now).state = s ∧
    (MemoryRegistry.update_manifest s m now).sent = [] ∧
    (s.closed = false →
      (MemoryRegistry.register_manifest s m now).result = Except.error e ∧
      (MemoryRegistry.update_manifest s m now).result = Except.error e) := by
  unfold MemoryRegistry.register_manifest MemoryRegistry.update_manifest
  by_cases hc : s.closed
  · simp [hc]
  · simp [hc, h]

/-- C6 (witness): a manifest with an empty service name fails validation and
registering it into the empty open registry changes nothing. -/
theorem c6_validation_failure_no_mutation_witness :
    manifestBad.validate =
      Except.error (Err.Validation "service_name" "service name is required") ∧
    (MemoryRegistry.register_manifest regEmpty manifestBad 0).state = regEmpty ∧
    (MemoryRegistry.register_manifest regEmpty manifestBad 0).sent = [] := by
  have h : manifestBad.validate =
      Except.error (Err.Validation "service_name" "service name is required") := rfl
  have hc := c6_validation_failure_no_mutation regEmpty manifestBad 0 _ h
  exact ⟨h, hc.1, hc.2.1⟩

/-- C9: in the per-service loop of `Merger::merge` (of which `Merger.merge`
is the fold), a service that passes the inclusion check but whose raw schema
fails to parse leaves the state unchanged except that its name is appended
to `included_services` and one parse warning is appended: none of its paths,
components or tags are merged. -/
theorem c9_parse_failure_included_warned (config : MergerConfig) (st : MergeState)
    (schema : ServiceSchema) (e : Err)
    (hinc : should_include_in_merge schema = true)
    (hnp : schema.parsed = none)
    (hparse : parse_openapi_schema schema.schema = .error e) :
    process_service config st schema = Except.ok { st with result := { st.result with
      included_services := st.result.included_services ++ [schema.manifest.service_name],
      warnings := st.result.warnings ++
        ["Failed to parse schema for " ++ schema.manifest.service_name ++ ": " ++
          e.display] } } := by
  unfold process_service
  simp [hinc, hnp, hparse]

/-- C9 (witness): the parse-failure behaviour at a concrete service whose
raw schema is a JSON string. -/
theorem c9_parse_failure_included_warned_witness :
    should_include_in_merge svcBadParse = true ∧
    svcBadParse.parsed = none ∧
    parse_openapi_schema svcBadParse.schema =
      Except.error (Err.InvalidSchema "schema must be an object") ∧
    process_service MergerConfig.default mergeStateW svcBadParse =
      Except.ok { mergeStateW with result := { mergeStateW.result with
        included_services := mergeStateW.result.included_services ++
          [svcBadParse.manifest.service_name],
        warnings := mergeStateW.result.warnings ++
          ["Failed to parse schema for " ++ svcBadParse.manifest.service_name ++ ": " ++
            (Err.InvalidSchema "schema must be an object").display] } } := by
  refine ⟨rfl, rfl, rfl, ?_⟩
  exact c9_parse_failure_included_warned MergerConfig.default mergeStateW svcBadParse
    (Err.InvalidSchema "schema must be an object") rfl rfl rfl

/-- C10: after `close()`, the manifest and schema maps are retained and the
read operations `get_manifest`, `list_manifests` and `fetch_schema` answer
exactly as before the close (they never consult the closed flag), while
every mutating operation, watch registration and `health()` fail with
backend-unavailable. -/
theorem c10_close_reads_survive (s : RegistryState) (id path svc : String)
    (m : SchemaManifest) (v : Json) (now : Int) (tx : Nat) :
    ((MemoryRegistry.close s).state.manifests = s.manifests ∧
     (MemoryRegistry.close s).state.schemas = s.schemas) ∧
    (MemoryRegistry.get_manifest (MemoryRegistry.close s).state id =
       MemoryRegistry.get_manifest s id ∧
     MemoryRegistry.list_manifests (MemoryRegistry.close s).state svc =
       MemoryRegistry.list_manifests s svc ∧
     MemoryRegistry.fetch_schema (MemoryRegistry.close s).state path =
       MemoryRegistry.fetch_schema s path) ∧
    ((MemoryRegistry.register_manifest (MemoryRegistry.close s).state m now).result =
       Except.error (.BackendUnavailable "registry is closed") ∧
     (MemoryRegistry.update_manifest (MemoryRegistry.close s).state m now).result =
       Except.error (.BackendUnavailable "registry is closed") ∧
     (MemoryRegistry.delete_manifest (MemoryRegistry.close s).state id now).result =
       Except.error (.BackendUnavailable "registry is closed") ∧
     (MemoryRegistry.publish_schema (MemoryRegistry.close s).state path v).result =
       Except.error (.BackendUnavailable "registry is closed") ∧
     (MemoryRegistry.delete_schema (MemoryRegistry.close s).state path).result =
       Except.error (.BackendUnavailable "registry is closed") ∧
     (MemoryRegistry.watch_manifests (MemoryRegistry.close s).state svc tx).result =
       Except.error (.BackendUnavailable "registry is closed") ∧
     MemoryRegistry.health (MemoryRegistry.close s).state =
       Except.error (.BackendUnavailable "registry is closed")) := by
  unfold MemoryRegistry.close MemoryRegistry.get_manifest MemoryRegistry.list_manifests
    MemoryRegistry.fetch_schema MemoryRegistry.register_manifest
    MemoryRegistry.update_manifest MemoryRegistry.delete_manifest
    MemoryRegistry.publish_schema MemoryRegistry.delete_schema
    MemoryRegistry.watch_manifests MemoryRegistry.health
  by_cases hc : s.closed
  · simp [hc]
  · simp [hc]

/-- A left fold that appends the image of an optional-valued function is the
accumulator followed by the `filterMap`. -/
theorem foldl_opt_append {α β : Type} (f : α → Option β) (l : List α) :
    ∀ acc : List β,
      l.foldl (fun routes x => routes ++ (f x).toList) acc = acc ++ l.filterMap f := by
  induction l with
  | nil => intro acc; simp
  | cons x xs ih =>
    intro acc
    cases hfx : f x <;> simp [hfx, ih]

/-- C7 (counterexample): on a schema whose single path item carries only the
uppercase key `GET`, the claim-side conversion (case-insensitive matching,
one route per path) yields one route with methods `["GET"]`, but the source
emits no route at all — key matching is case-sensitive and paths with no
matched method produce nothing. -/
theorem c7_counterexample :
    Client.convert_openapi_to_routes manifestW c7schema = [] ∧
    (specOpenapiRoutes manifestW c7schema).map (fun r => r.methods) = [["GET"]] :=
  ⟨rfl, rfl⟩

/-- C7 (amended): the OpenAPI route conversion emits one route for exactly
those paths whose item is an object with at least one key exactly matching
a lowercase verb; methods are those keys uppercased in source order, with
`target_url = "http://<service_name>:8080<path>"` and
`health_url = "http://<service_name>:8080<endpoints.health>"`. -/
theorem c7_convert_openapi_amended (manifest : SchemaManifest) (schema : Json) :
    Client.convert_openapi_to_routes manifest schema =
      specOpenapiRoutesAmended manifest schema := by
  unfold Client.convert_openapi_to_routes specOpenapiRoutesAmended
  cases hp : (schema.get "paths").bind Json.asObject with
  | none => rfl
  | some paths =>
    have hbody : ∀ (routes : List ServiceRoute) (pv : String × Json),
        (match pv.2.asObject with
         | none => routes
         | some path_obj =>
           let methods := Client.openapi_route_methods path_obj
           if methods.isEmpty then routes
           else routes ++ [Client.openapi_route manifest pv.1 methods])
        = routes ++ ((pv.2.asObject).bind (fun path_obj =>
              let methods := Client.openapi_route_methods path_obj
              if methods.isEmpty then none
              else some (Client.openapi_route manifest pv.1 methods))).toList := by
      intro routes pv
      cases ho : pv.2.asObject with
      | none => simp
      | some path_obj =>
        by_cases he : Client.openapi_route_methods path_obj = []
        · simp [he]
        · simp [he]
    simp only [hbody]
    simpa using foldl_opt_append
      (fun pv : String × Json => (pv.2.asObject).bind (fun path_obj =>
        let methods := Client.openapi_route_methods path_obj
        if methods.isEmpty then none
        else some (Client.openapi_route manifest pv.1 methods))) paths []

end Farp
